import Mathlib

/-!
# Discord-Role-Nickname service: guards, validator, routes and persistence gateway

A shallow embedding of the four source files of the service

* `src/service/middleware/auth.js` (`authMiddleware`),
* `src/service/middleware/validator.js` (`validateUserData`, `isAdminUser`),
* `src/service/routes/userRoutes.js` (the `/api/users` router),
* `src/service/db/mongo.js` (`connectToDatabase`, `closeConnection`,
  `getMembersCollection`),

followed by the properties proved about them.

Conventions of the embedding:

* a JavaScript value that may be `undefined` is an `Option`, `none` being `undefined`;
* an Express middleware or handler returns an `Outcome`: it called `next()`, it sent
  a response, or it called `next(error)`; the three are exclusive because every
  `res.status(..).json(..)` of the source is a `return`;
* `process.env` is the record `Env`; an environment variable is a string or unset.
-/

namespace DiscordRoleNickname

/-! ## JavaScript values -/

/-- A value that `JSON.parse` can produce. A number is kept as an integer: the code
only asks of a number whether it is falsy (zero) and what its `typeof` is. -/
inductive JSValue where
  | null
  | bool (b : Bool)
  | num (n : Int)
  | str (s : String)
  | arr (items : List JSValue)
  | obj (fields : List (String × JSValue))

/-- JavaScript truthiness of a defined value: `null`, `false`, `0` and `""` are falsy. -/
def JSValue.truthy : JSValue → Bool
  | .null => false
  | .bool b => b
  | .num n => n != 0
  | .str s => s != ""
  | .arr _ => true
  | .obj _ => true

/-- Truthiness of a possibly `undefined` value (`!x` in the source is its negation). -/
def truthy : Option JSValue → Bool
  | none => false
  | some v => v.truthy

/-- Truthiness of a possibly `undefined` string (a header, an environment variable,
a route parameter): only `undefined` and `""` are falsy. -/
def truthyStr : Option String → Bool
  | none => false
  | some s => s != ""

/-- The test `/^\d+$/.test(s)`: without the `m` flag `^` and `$` match only at the two
ends of the input, and `\d` is `[0-9]`, so the string is one or more digits and
nothing else. -/
def regexDigitsTest (s : String) : Bool :=
  !s.data.isEmpty && s.data.all Char.isDigit

/-- The condition `typeof v === 'string' && /^\d+$/.test(v)` on a defined value. -/
def isDigitString : JSValue → Bool
  | .str s => regexDigitsTest s
  | _ => false

/-! ## Responses -/

/-- A member record as the collection holds it and as the router returns it:
`{user_id, roles, nickname}`; `roles` and `nickname` may be absent. -/
structure MemberDoc where
  user_id : String
  roles : Option JSValue
  nickname : Option JSValue

/-- The `data` field of a response envelope. -/
inductive Payload where
  | record (doc : MemberDoc)
  | records (docs : List MemberDoc)

/-- The JSON envelope `{success, message?, data?, count?}` every response carries. -/
structure Envelope where
  success : Bool
  message : Option String := none
  data : Option Payload := none
  count : Option Nat := none

/-- A thrown JavaScript error; `code` is its `error.code` when it has one (the storage
driver numbers its errors, 11000 being a duplicate key). -/
structure JSError where
  code : Option Nat
  text : String
  deriving DecidableEq

/-- What a middleware or a handler did with a request. -/
inductive Outcome where
  | next
  | respond (status : Nat) (body : Envelope)
  | forward (error : JSError)

/-- The envelope `{success: false, message}` of every rejection. -/
def failure (message : String) : Envelope :=
  { success := false, message := some message }

/-- The HTTP status of an outcome, when a response was sent. -/
def Outcome.status : Outcome → Option Nat
  | .respond s _ => some s
  | _ => none

/-! ## Requests and configuration -/

/-- The part of `process.env` the guards read. -/
structure Env where
  API_KEY : Option String
  NODE_ENV : Option String
  ADMIN_API_KEY : Option String

/-- The request body after destructuring `{ user_id, roles, nickname }`. -/
structure Body where
  user_id : Option JSValue
  roles : Option JSValue
  nickname : Option JSValue

/-- The part of an Express request the guards read: `req.path` and `req.headers`. -/
structure Request where
  path : String
  headers : String → Option String

/-- A secret is configured when the variable is truthy: the guards test it with
`!validApiKey` and `adminApiKey && ..`, so an unset and an empty variable are the
same to them. -/
def configured (secret : Option String) : Prop :=
  ∃ key, secret = some key ∧ key ≠ ""

/-! ## `src/service/middleware/auth.js` -/

/-- The middleware `authMiddleware(req, res, next)`. -/
def authMiddleware (env : Env) (req : Request) : Outcome :=
  if req.path = "/health" then
    .next
  else
    let validApiKey := env.API_KEY
    if !truthyStr validApiKey then
      if env.NODE_ENV = some "production" then
        .respond 500 (failure "Server configuration error")
      else
        .next
    else
      let apiKey := req.headers "x-api-key"
      if !truthyStr apiKey then
        .respond 401 (failure "API key is missing")
      else if apiKey ≠ validApiKey then
        .respond 403 (failure "Invalid API key")
      else
        .next

/-! ## `src/service/middleware/validator.js` -/

/-- The middleware `validateUserData(req, res, next)`. The `for` loop over `roles`
returns the same response at the first element that fails the test, which is
`List.all` failing. -/
def validateUserData (body : Body) : Outcome :=
  let user_id := body.user_id
  let roles := body.roles
  if !truthy user_id then
    .respond 400 (failure "user_id is required")
  else if !(user_id.elim false isDigitString) then
    .respond 400 (failure "user_id must be a valid Discord user ID (string of numbers)")
  else
    match roles with
    | none => .next
    | some (.arr items) =>
      if items.all isDigitString then
        .next
      else
        .respond 400 (failure "Each role ID must be a valid Discord role ID (string of numbers)")
    | some _ => .respond 400 (failure "roles must be an array")

/-- The middleware `isAdminUser(req, res, next)`. -/
def isAdminUser (env : Env) (req : Request) : Outcome :=
  let adminApiKey := env.ADMIN_API_KEY
  if truthyStr adminApiKey && decide (req.headers "x-api-key" ≠ adminApiKey) then
    .respond 403 (failure "Admin privileges required")
  else
    .next

/-- Two middlewares in sequence: the second runs only if the first called `next()`. -/
def andThen (first second : Outcome) : Outcome :=
  match first with
  | .next => second
  | stopped => stopped

/-- The guards in front of the list-all and delete-all handlers: `authMiddleware`,
then the route's `isAdminUser`. The result is `next` when the handler runs. -/
def adminGuards (env : Env) (req : Request) : Outcome :=
  andThen (authMiddleware env req) (isAdminUser env req)

/-! ## The document store

The router talks to a MongoDB collection through the driver; neither is part of the
source files. The collection is modelled from the specification: one record shape
`{user_id: string, roles: string[]|absent, nickname: string|absent}`, an upsert that is
"insert-if-absent / replace-if-present", a "full replacement of `roles`/`nickname`, not a
merge", and lookups and deletions "by exact `user_id` match". Storage-assigned metadata
is left out. -/

/-- Modelled from the spec: the contents of the members collection, the MongoDB
collection the source reaches through `getMembersCollection()`; the records are in
insertion order. -/
structure Collection where
  docs : List MemberDoc

/-- The part of the driver's update result the router reads. -/
structure UpdateResult where
  matchedCount : Nat
  upsertedCount : Nat

/-- The part of the driver's delete result the router reads. -/
structure DeleteResult where
  deletedCount : Nat

/-- Modelled from the spec: `collection.findOne({ user_id })` of the MongoDB driver,
"fetch one record by exact `user_id` match"; `none` is the driver's `null`. -/
def Collection.findOne (c : Collection) (user_id : String) : Option MemberDoc :=
  c.docs.find? (fun doc => doc.user_id == user_id)

/-- Modelled from the spec: `collection.find({}).toArray()` of the MongoDB driver,
"fetch every record". -/
def Collection.findAll (c : Collection) : List MemberDoc :=
  c.docs

/-- Modelled from the spec: the effect of `$set: { roles, nickname }` on the first
record of the list with the given `user_id` ("replacing `roles`/`nickname`"); the
MongoDB update operator is not part of the source files. -/
def setFirst (user_id : String) (roles nickname : Option JSValue) :
    List MemberDoc → List MemberDoc
  | [] => []
  | doc :: rest =>
    if doc.user_id == user_id then
      { doc with roles := roles, nickname := nickname } :: rest
    else
      doc :: setFirst user_id roles nickname rest

/-- Modelled from the spec: `collection.updateOne({ user_id }, { $set: { roles,
nickname } }, { upsert: true })` of the MongoDB driver, an "insert-if-absent /
replace-if-present single-document operation keyed by a unique field";
`upsertedCount` is 1 exactly when a record was inserted. -/
def Collection.updateOne (c : Collection) (user_id : String)
    (roles nickname : Option JSValue) : UpdateResult × Collection :=
  match c.findOne user_id with
  | some _ =>
    ({ matchedCount := 1, upsertedCount := 0 },
      { docs := setFirst user_id roles nickname c.docs })
  | none =>
    ({ matchedCount := 0, upsertedCount := 1 },
      { docs := c.docs ++ [{ user_id := user_id, roles := roles, nickname := nickname }] })

/-- Modelled from the spec: the list without its first record of the given
`user_id`, the effect of the MongoDB driver's `deleteOne`. -/
def removeFirst (user_id : String) : List MemberDoc → List MemberDoc
  | [] => []
  | doc :: rest =>
    if doc.user_id == user_id then rest else doc :: removeFirst user_id rest

/-- Modelled from the spec: `collection.deleteOne({ user_id })` of the MongoDB driver,
"remove one record by exact `user_id` match". -/
def Collection.deleteOne (c : Collection) (user_id : String) : DeleteResult × Collection :=
  match c.findOne user_id with
  | some _ => ({ deletedCount := 1 }, { docs := removeFirst user_id c.docs })
  | none => ({ deletedCount := 0 }, c)

/-- Modelled from the spec: `collection.deleteMany({})` of the MongoDB driver,
"remove every record", "count removed". -/
def Collection.deleteMany (c : Collection) : DeleteResult × Collection :=
  ({ deletedCount := c.docs.length }, { docs := [] })

/-- The number of stored records with the given `user_id`. -/
def Collection.countOf (c : Collection) (user_id : String) : Nat :=
  (c.docs.filter (fun doc => doc.user_id == user_id)).length

/-! ## `src/service/routes/userRoutes.js`

Every handler body is a `try` block. `fault` is the error thrown inside it by the
storage layer (by `getMembersCollection()` or by the awaited collection call), `none`
when both succeed; a call that throws leaves the collection as it was. -/

/-- The handler of `router.get('/')`. -/
def listUsers (fault : Option JSError) (c : Collection) : Outcome :=
  match fault with
  | some error => .forward error
  | none =>
    let users := c.findAll
    .respond 200 { success := true, count := some users.length, data := some (.records users) }

/-- The handler of `router.get('/:id')`; `id` is `req.params.id`, and `!userId` holds
of `undefined` and of the empty string. -/
def getUserById (fault : Option JSError) (c : Collection) (id : Option String) : Outcome :=
  match id with
  | none => .respond 400 (failure "User ID is required")
  | some userId =>
    if userId = "" then
      .respond 400 (failure "User ID is required")
    else
      match fault with
      | some error => .forward error
      | none =>
        match c.findOne userId with
        | none => .respond 404 (failure "User not found")
        | some user => .respond 200 { success := true, data := some (.record user) }

/-- The handler of `router.post('/')` on a body whose `user_id` is the string
`user_id`. -/
def upsertUser (fault : Option JSError) (c : Collection) (user_id : String)
    (roles nickname : Option JSValue) : Outcome × Collection :=
  match fault with
  | some error =>
    if error.code = some 11000 then
      (.respond 400 (failure "Duplicate user ID"), c)
    else
      (.forward error, c)
  | none =>
    let result := c.updateOne user_id roles nickname
    let isNewUser := result.1.upsertedCount == 1
    (.respond (if isNewUser then 201 else 200)
      { success := true
        message := some (if isNewUser then "User created" else "User updated")
        data := some (.record { user_id := user_id, roles := roles, nickname := nickname }) },
      result.2)

/-- The route `router.post('/', validateUserData, handler)`. The handler runs only
when `validateUserData` called `next()`, and then `user_id` is a string; the store
model has no other keys, so the last case (never reached, see
`validateUserData_next_user_id`) only forwards an error. -/
def postUsers (fault : Option JSError) (c : Collection) (body : Body) :
    Outcome × Collection :=
  match validateUserData body with
  | .next =>
    match body.user_id with
    | some (.str user_id) => upsertUser fault c user_id body.roles body.nickname
    | _ => (.forward { code := none, text := "user_id is not a string" }, c)
  | stopped => (stopped, c)

/-- The handler of `router.delete('/:id')`. -/
def deleteUserById (fault : Option JSError) (c : Collection) (id : Option String) :
    Outcome × Collection :=
  match id with
  | none => (.respond 400 (failure "User ID is required"), c)
  | some userId =>
    if userId = "" then
      (.respond 400 (failure "User ID is required"), c)
    else
      match fault with
      | some error => (.forward error, c)
      | none =>
        let result := c.deleteOne userId
        if result.1.deletedCount == 0 then
          (.respond 404 (failure "User not found"), c)
        else
          (.respond 200 { success := true, message := some "User deleted" }, result.2)

/-- The handler of `router.delete('/')`. -/
def deleteAllUsers (fault : Option JSError) (c : Collection) : Outcome × Collection :=
  match fault with
  | some error => (.forward error, c)
  | none =>
    let result := c.deleteMany
    (.respond 200
      { success := true, message := some "All users deleted",
        count := some result.1.deletedCount },
      result.2)

/-- A list-all request through `authMiddleware`, then `router.get('/', isAdminUser,
handler)`: the outcome, and whether the handler ran. -/
def serveListAll (env : Env) (req : Request) (fault : Option JSError) (c : Collection) :
    Outcome × Bool :=
  match adminGuards env req with
  | .next => (listUsers fault c, true)
  | stopped => (stopped, false)

/-- A delete-all request through `authMiddleware`, then `router.delete('/',
isAdminUser, handler)`: the outcome, the collection afterwards, and whether the
handler ran. -/
def serveDeleteAll (env : Env) (req : Request) (fault : Option JSError) (c : Collection) :
    Outcome × Collection × Bool :=
  match adminGuards env req with
  | .next => ((deleteAllUsers fault c).1, (deleteAllUsers fault c).2, true)
  | stopped => (stopped, c, false)

/-! ## `src/service/db/mongo.js`

The module keeps three variables, `client`, `db` and `membersCollection`, all `null`
at load. Its functions are `async`: each runs without interruption up to its next
`await` and is resumed when the awaited promise settles, so an activation is a small
state machine whose steps are the code between two `await`s, and other activations
may run between two steps. The answers of the MongoDB driver to the three awaited
calls (`client.connect()`, `listIndexes().toArray()`, `createIndex(..)`) are inputs. -/

/-- The module variables. A `MongoClient` is identified by the number of clients
constructed before it, and the `db` and collection handles by the client they were
obtained from. Two counters record the calls made to the driver: `new MongoClient(..)`
and `createIndex(..)`. -/
structure GatewayState where
  client : Option Nat
  db : Option Nat
  membersCollection : Option Nat
  clientsCreated : Nat
  createIndexCalls : Nat
  deriving DecidableEq

/-- The module as loaded: the three variables are `null`. -/
def GatewayState.fresh : GatewayState :=
  { client := none, db := none, membersCollection := none,
    clientsCreated := 0, createIndexCalls := 0 }

/-- An entry of `listIndexes().toArray()`, as far as the code reads it: the value of
`index.key.user_id` when it is a number (`none` when `index.key` or `user_id` is
missing) and the truthiness of `index.unique`. -/
structure IndexInfo where
  keyUserId : Option Int
  unique : Bool
  deriving DecidableEq

/-- The driver's answers to the awaited calls of one connection attempt. -/
structure DriverReplies where
  connect : Except JSError Unit
  listIndexes : Except JSError (List IndexInfo)
  createIndex : Except JSError Unit

/-- Where an activation of `connectToDatabase` stands: settled (it returned
`{ db, membersCollection }` or threw), or suspended at one of its three `await`s. -/
inductive ConnectTask where
  | returned (db membersCollection : Option Nat)
  | thrown (error : JSError)
  | awaitingConnect
  | awaitingListIndexes
  | awaitingCreateIndex
  deriving DecidableEq

/-- The error of calling a method on `null`. -/
def nullDereference : JSError :=
  { code := none, text := "TypeError: Cannot read properties of null" }

/-- The `catch` block of `connectToDatabase`: `client = null; throw error`. -/
def connectCatch (m : GatewayState) (error : JSError) : GatewayState × ConnectTask :=
  ({ m with client := none }, .thrown error)

/-- The code of `connectToDatabase` up to `await client.connect()`. -/
def connectStart (m : GatewayState) : GatewayState × ConnectTask :=
  if m.client.isSome then
    (m, .returned m.db m.membersCollection)
  else
    ({ m with client := some m.clientsCreated, clientsCreated := m.clientsCreated + 1 },
      .awaitingConnect)

/-- The code of `connectToDatabase` from the settling of `client.connect()` up to
`await membersCollection.listIndexes().toArray()`. -/
def afterConnect (m : GatewayState) (reply : Except JSError Unit) :
    GatewayState × ConnectTask :=
  match reply with
  | .error error => connectCatch m error
  | .ok _ =>
    match m.client with
    | none => connectCatch m nullDereference
    | some c => ({ m with db := some c, membersCollection := some c }, .awaitingListIndexes)

/-- The code of `connectToDatabase` from the settling of `listIndexes().toArray()` up
to `await membersCollection.createIndex(..)` or to the `return`. -/
def afterListIndexes (m : GatewayState) (reply : Except JSError (List IndexInfo)) :
    GatewayState × ConnectTask :=
  match reply with
  | .error error => connectCatch m error
  | .ok indexes =>
    let hasUserIdIndex := indexes.any (fun index => index.keyUserId == some 1 && index.unique)
    if !hasUserIdIndex then
      match m.membersCollection with
      | none => connectCatch m nullDereference
      | some _ => ({ m with createIndexCalls := m.createIndexCalls + 1 }, .awaitingCreateIndex)
    else
      (m, .returned m.db m.membersCollection)

/-- The code of `connectToDatabase` from the settling of `createIndex(..)` to the
`return`. -/
def afterCreateIndex (m : GatewayState) (reply : Except JSError Unit) :
    GatewayState × ConnectTask :=
  match reply with
  | .error error => connectCatch m error
  | .ok _ => (m, .returned m.db m.membersCollection)

/-- One step of a suspended activation of `connectToDatabase`: the promise it awaits
settles with the driver's answer. A settled activation stays as it is. -/
def ConnectTask.resume (m : GatewayState) (replies : DriverReplies) :
    ConnectTask → GatewayState × ConnectTask
  | .awaitingConnect => afterConnect m replies.connect
  | .awaitingListIndexes => afterListIndexes m replies.listIndexes
  | .awaitingCreateIndex => afterCreateIndex m replies.createIndex
  | settled => (m, settled)

/-- The function `connectToDatabase()` run alone from start to end: it has three
`await`s, so three resumptions settle it. -/
def connectToDatabase (replies : DriverReplies) (m : GatewayState) :
    GatewayState × ConnectTask :=
  let s0 := connectStart m
  let s1 := s0.2.resume s0.1 replies
  let s2 := s1.2.resume s1.1 replies
  s2.2.resume s2.1 replies

/-- The function `closeConnection()`; the driver's `client.close()` is taken to succeed. -/
def closeConnection (m : GatewayState) : GatewayState :=
  if m.client.isSome then
    { m with client := none, db := none, membersCollection := none }
  else
    m

/-- Where an activation of `getMembersCollection` stands: settled (it returned the
value of `membersCollection` or threw), or suspended at `await connectToDatabase()`,
whose activation is `inner`. -/
inductive GetTask where
  | returned (collection : Option Nat)
  | thrown (error : JSError)
  | awaiting (inner : ConnectTask)
  deriving DecidableEq

/-- The code of `getMembersCollection` up to `await connectToDatabase()`, or to the
`return` when `membersCollection` is set. The call `connectToDatabase()` runs up to its
own first `await` before the caller suspends. -/
def getStart (m : GatewayState) : GatewayState × GetTask :=
  if m.membersCollection.isNone then
    ((connectStart m).1, .awaiting (connectStart m).2)
  else
    (m, .returned m.membersCollection)

/-- One step of a suspended activation of `getMembersCollection`. While the inner
`connectToDatabase` is suspended the step is the inner one; once it is settled the
step is the continuation after the `await`: `return membersCollection`, reading the
module variable at that moment, or the rethrown error. -/
def GetTask.resume (m : GatewayState) (replies : DriverReplies) :
    GetTask → GatewayState × GetTask
  | .awaiting (.returned _ _) => (m, .returned m.membersCollection)
  | .awaiting (.thrown error) => (m, .thrown error)
  | .awaiting inner => ((inner.resume m replies).1, .awaiting (inner.resume m replies).2)
  | settled => (m, settled)

/-- The function `getMembersCollection()` run alone from start to end: at most the
three `await`s of `connectToDatabase` and its own, so four resumptions settle it. -/
def getMembersCollection (replies : DriverReplies) (m : GatewayState) :
    GatewayState × GetTask :=
  let s0 := getStart m
  let s1 := s0.2.resume s0.1 replies
  let s2 := s1.2.resume s1.1 replies
  let s3 := s2.2.resume s2.1 replies
  s3.2.resume s3.1 replies

/-- Two overlapping calls of `getMembersCollection()`, as two requests arriving
together make them. The first caller runs up to its first `await`; the second caller
starts and runs up to its `await`; then the second is resumed once and the first four
times. When the second caller finds `client` set, its `connectToDatabase()` has already
returned, so the promise it awaits is settled and its continuation is queued at once,
ahead of the network answer the first caller waits for. The result is the two
activations and the module variables at the end. -/
def overlappingCalls (replies : DriverReplies) (m : GatewayState) :
    GetTask × GetTask × GatewayState :=
  let a0 := getStart m
  let b0 := getStart a0.1
  let b1 := b0.2.resume b0.1 replies
  let a1 := a0.2.resume b1.1 replies
  let a2 := a1.2.resume a1.1 replies
  let a3 := a2.2.resume a2.1 replies
  let a4 := a3.2.resume a3.1 replies
  (a4.2, b1.2, a4.1)

/-- The number of `await`s a suspended `connectToDatabase` may still go through; 0 when
it has settled. -/
def ConnectTask.awaits : ConnectTask → Nat
  | .awaitingConnect => 3
  | .awaitingListIndexes => 2
  | .awaitingCreateIndex => 1
  | _ => 0

/-- The number of `await`s a suspended `getMembersCollection` may still go through: its
own and those of the inner activation; 0 when it has settled. -/
def GetTask.awaits : GetTask → Nat
  | .awaiting inner => inner.awaits + 1
  | _ => 0

/-! ## The specification's vocabulary -/

/-- The specification's "non-empty string consisting only of decimal digits 0-9"
(its `^[0-9]+$`), stated on the characters of the string. -/
def DecimalDigits (s : String) : Prop :=
  s ≠ "" ∧ ∀ c ∈ s.data, c ∈ ['0', '1', '2', '3', '4', '5', '6', '7', '8', '9']

/-- The specification's rule for `roles`: not present, or a sequence every element of
which is a string of decimal digits. -/
def RolesAcceptable (roles : Option JSValue) : Prop :=
  roles = none ∨
    ∃ items : List JSValue, roles = some (.arr items) ∧
      ∀ item ∈ items, ∃ s : String, item = .str s ∧ DecimalDigits s

/-! ## Sample configurations and requests -/

/-- A request with the given path whose only header is `x-api-key`, when given. -/
def requestWith (path : String) (apiKey : Option String) : Request :=
  { path := path, headers := fun name => if name = "x-api-key" then apiKey else none }

/-- A configuration with the primary secret `s3cret`, outside production, no admin secret. -/
def envWithKey : Env :=
  { API_KEY := some "s3cret", NODE_ENV := none, ADMIN_API_KEY := none }

/-- A configuration whose primary secret is `s3cret` and whose admin secret is `r00t`. -/
def envTwoKeys : Env :=
  { API_KEY := some "s3cret", NODE_ENV := some "production", ADMIN_API_KEY := some "r00t" }

/-- A configuration whose primary secret and admin secret are both `s3cret`. -/
def envSameKey : Env :=
  { API_KEY := some "s3cret", NODE_ENV := some "production", ADMIN_API_KEY := some "s3cret" }

/-- The body `{"user_id": "42", "roles": ["7", "8"], "nickname": "neo"}`. -/
def sampleBody : Body :=
  { user_id := some (.str "42"), roles := some (.arr [.str "7", .str "8"]),
    nickname := some (.str "neo") }

/-- The body `{"user_id": "42"}`, without `roles` and `nickname`. -/
def bareBody : Body :=
  { user_id := some (.str "42"), roles := none, nickname := none }

/-- A collection holding one record, of user `7`. -/
def otherCollection : Collection :=
  { docs := [{ user_id := "7", roles := none, nickname := some (.str "trinity") }] }

/-- A collection holding one record, of user `42`, with a role and a nickname. -/
def sampleCollection : Collection :=
  { docs := [{ user_id := "42", roles := some (.arr [.str "1"]), nickname := some (.str "old") }] }

/-- A driver that answers every call of a connection attempt successfully and reports
no index yet. -/
def workingDriver : DriverReplies :=
  { connect := .ok (), listIndexes := .ok [], createIndex := .ok () }

/-! ## Properties of `authMiddleware` -/

theorem truthyStr_of_configured {secret : Option String} (h : configured secret) :
    truthyStr secret = true := by
  obtain ⟨key, rfl, hne⟩ := h
  simpa [truthyStr] using hne

theorem truthyStr_eq_false_iff (secret : Option String) :
    truthyStr secret = false ↔ ¬ configured secret := by
  cases secret with
  | none => simp [truthyStr, configured]
  | some s => simp [truthyStr, configured]

/-- C1 (as amended): with `API_KEY` configured and a path other than `/health`, the
outcome is decided by the `x-api-key` header alone: an absent or empty header is
answered 401, a non-empty header different from `API_KEY` is answered 403, both with
`success: false` and without `next()`, and a header equal to `API_KEY` calls `next()`
and sends nothing. -/
theorem authMiddleware_configured (env : Env) (req : Request) (key : String)
    (hkey : env.API_KEY = some key) (hne : key ≠ "") (hpath : req.path ≠ "/health") :
    ((req.headers "x-api-key" = none ∨ req.headers "x-api-key" = some "") →
        authMiddleware env req = .respond 401 (failure "API key is missing")) ∧
    (∀ h : String, req.headers "x-api-key" = some h → h ≠ "" → h ≠ key →
        authMiddleware env req = .respond 403 (failure "Invalid API key")) ∧
    (req.headers "x-api-key" = some key → authMiddleware env req = .next) ∧
    (failure "API key is missing").success = false ∧
    (failure "Invalid API key").success = false ∧
    (∀ other : Request, other.path ≠ "/health" →
        other.headers "x-api-key" = req.headers "x-api-key" →
        authMiddleware env other = authMiddleware env req) := by
  refine ⟨?_, ?_, ?_, rfl, rfl, ?_⟩
  · rintro (h | h) <;> simp [authMiddleware, hpath, hkey, truthyStr, hne, h]
  · intro h hh hh1 hh2
    simp [authMiddleware, hpath, hkey, truthyStr, hne, hh, hh1, hh2]
  · intro h
    simp [authMiddleware, hpath, hkey, truthyStr, hne, h]
  · intro other hother hsame
    simp [authMiddleware, hpath, hother, hsame]

/-- The amended C1 at the secret `s3cret` and a request to `/api/users` carrying it. -/
theorem authMiddleware_configured_witness :
    envWithKey.API_KEY = some "s3cret" ∧ "s3cret" ≠ "" ∧
    (requestWith "/api/users" (some "s3cret")).path ≠ "/health" ∧
    authMiddleware envWithKey (requestWith "/api/users" (some "s3cret")) = .next :=
  ⟨rfl, by decide, by decide,
    (authMiddleware_configured envWithKey (requestWith "/api/users" (some "s3cret")) "s3cret"
      rfl (by decide) (by decide)).2.2.1 rfl⟩

/-- C1 as stated fails: with the secret `s3cret` configured, a request to `/api/users`
whose `x-api-key` header is present but empty (so not equal to the secret) is answered
401, not 403. -/
theorem authMiddleware_empty_header_is_401 :
    configured envWithKey.API_KEY ∧
    (requestWith "/api/users" (some "")).path ≠ "/health" ∧
    (requestWith "/api/users" (some "")).headers "x-api-key" = some "" ∧
    (requestWith "/api/users" (some "")).headers "x-api-key" ≠ envWithKey.API_KEY ∧
    authMiddleware envWithKey (requestWith "/api/users" (some ""))
      = .respond 401 (failure "API key is missing") ∧
    (authMiddleware envWithKey (requestWith "/api/users" (some ""))).status ≠ some 403 := by
  refine ⟨⟨"s3cret", rfl, by decide⟩, by decide, rfl, by decide, ?_, ?_⟩ <;>
    simp [authMiddleware, requestWith, envWithKey, truthyStr, Outcome.status]

/-- C4: with no `API_KEY` configured and a path other than `/health`, the header plays
no part: in production mode the answer is 500 with `success: false` and no `next()`,
in every other mode `next()` is called and nothing is sent. -/
theorem authMiddleware_unconfigured (env : Env) (req : Request)
    (hkey : ¬ configured env.API_KEY) (hpath : req.path ≠ "/health") :
    (env.NODE_ENV = some "production" →
        authMiddleware env req = .respond 500 (failure "Server configuration error")) ∧
    (env.NODE_ENV ≠ some "production" → authMiddleware env req = .next) ∧
    (failure "Server configuration error").success = false ∧
    (∀ other : Request, other.path ≠ "/health" →
        authMiddleware env other = authMiddleware env req) := by
  have hfalse : truthyStr env.API_KEY = false := (truthyStr_eq_false_iff _).2 hkey
  refine ⟨?_, ?_, rfl, ?_⟩
  · intro h
    simp [authMiddleware, hpath, hfalse, h]
  · intro h
    simp [authMiddleware, hpath, hfalse, h]
  · intro other hother
    simp [authMiddleware, hpath, hother, hfalse]

/-- C4 in production mode with `API_KEY` unset and a request that carries a key. -/
theorem authMiddleware_unconfigured_witness :
    ¬ configured (none : Option String) ∧
    (requestWith "/api/users" (some "s3cret")).path ≠ "/health" ∧
    authMiddleware { API_KEY := none, NODE_ENV := some "production", ADMIN_API_KEY := none }
        (requestWith "/api/users" (some "s3cret"))
      = .respond 500 (failure "Server configuration error") :=
  ⟨by simp [configured], by decide,
    (authMiddleware_unconfigured
      { API_KEY := none, NODE_ENV := some "production", ADMIN_API_KEY := none }
      (requestWith "/api/users" (some "s3cret")) (by simp [configured]) (by decide)).1 rfl⟩

/-- C9: whatever the configuration and whatever the headers, a request whose path is
exactly `/health` makes `authMiddleware` call `next()` and send nothing. -/
theorem authMiddleware_health (env : Env) (headers : String → Option String) :
    authMiddleware env { path := "/health", headers := headers } = .next := by
  simp [authMiddleware]

/-! ## Properties of `validateUserData` -/

theorem isDigit_iff_mem (c : Char) :
    c.isDigit = true ↔ c ∈ ['0', '1', '2', '3', '4', '5', '6', '7', '8', '9'] := by
  constructor
  · intro h
    simp only [Char.isDigit, Bool.and_eq_true, decide_eq_true_eq, ge_iff_le] at h
    obtain ⟨h1, h2⟩ := h
    have h1' : 48 ≤ c.toNat := h1
    have h2' : c.toNat ≤ 57 := h2
    have hc : c = Char.ofNat c.toNat := (Char.ofNat_toNat c).symm
    rw [hc]
    generalize c.toNat = n at h1' h2'
    interval_cases n <;> decide
  · intro h
    simp only [List.mem_cons, List.mem_singleton, List.not_mem_nil, or_false] at h
    rcases h with rfl | rfl | rfl | rfl | rfl | rfl | rfl | rfl | rfl | rfl <;> decide

theorem string_ne_empty_iff (s : String) : s ≠ "" ↔ s.data ≠ [] := by
  constructor
  · intro h h2
    apply h
    cases s
    simp_all
  · intro h h2
    subst h2
    simp at h

theorem regexDigitsTest_iff (s : String) : regexDigitsTest s = true ↔ DecimalDigits s := by
  unfold regexDigitsTest DecimalDigits
  rw [string_ne_empty_iff]
  simp only [Bool.and_eq_true, Bool.not_eq_true', List.all_eq_true, isDigit_iff_mem]
  cases s.data <;> simp

theorem isDigitString_iff (v : JSValue) :
    isDigitString v = true ↔ ∃ s : String, v = .str s ∧ DecimalDigits s := by
  cases v <;> simp [isDigitString, regexDigitsTest_iff]

theorem digits_truthy {v : JSValue} (h : isDigitString v = true) : v.truthy = true := by
  obtain ⟨s, rfl, hs, _⟩ := (isDigitString_iff v).1 h
  simpa [JSValue.truthy] using hs

theorem roles_all_iff (items : List JSValue) :
    items.all isDigitString = true ↔
      ∀ item ∈ items, ∃ s : String, item = .str s ∧ DecimalDigits s := by
  simp [List.all_eq_true, isDigitString_iff]

/-- When `validateUserData` calls `next()`, `user_id` is a string. -/
theorem validateUserData_next_user_id (body : Body) (h : validateUserData body = .next) :
    ∃ s : String, body.user_id = some (.str s) ∧ DecimalDigits s := by
  unfold validateUserData at h
  simp only at h
  split at h
  · exact absurd h (by simp)
  · split at h
    · exact absurd h (by simp)
    · rename_i _ hd
      cases hu : body.user_id with
      | none => simp [hu] at hd
      | some v =>
        simp only [hu, Option.elim] at hd
        have hv : isDigitString v = true := by simpa using hd
        obtain ⟨s, rfl, hs⟩ := (isDigitString_iff v).1 hv
        exact ⟨s, rfl, hs⟩

theorem validateUserData_of_digits (body : Body) (v : JSValue)
    (hu : body.user_id = some v) (hv : isDigitString v = true) :
    validateUserData body =
      match body.roles with
      | none => .next
      | some (.arr items) =>
        if items.all isDigitString then
          .next
        else
          .respond 400 (failure "Each role ID must be a valid Discord role ID (string of numbers)")
      | some _ => .respond 400 (failure "roles must be an array") := by
  simp [validateUserData, hu, truthy, digits_truthy hv, hv]

theorem validateUserData_of_not_digits (body : Body)
    (hu : ∀ v, body.user_id = some v → isDigitString v = false) :
    validateUserData body = .respond 400 (failure "user_id is required") ∨
    validateUserData body =
      .respond 400 (failure "user_id must be a valid Discord user ID (string of numbers)") := by
  cases hb : body.user_id with
  | none => left; simp [validateUserData, hb, truthy]
  | some v =>
    have hv := hu v hb
    by_cases ht : v.truthy = true
    · right; simp [validateUserData, hb, truthy, ht, hv]
    · left; simp [validateUserData, hb, truthy, ht]

/-- C2: `validateUserData` calls `next()` (and sends nothing) exactly when `user_id` is
a non-empty string of decimal digits and `roles` is either not present or a sequence
whose every element is a non-empty string of decimal digits; in every other case it
answers 400 with `success: false` and a message, without `next()`; and the value of
`nickname`, present or not, never changes the outcome. -/
theorem validateUserData_spec (body : Body) :
    (validateUserData body = .next ↔
      (∃ s : String, body.user_id = some (.str s) ∧ DecimalDigits s) ∧
        RolesAcceptable body.roles) ∧
    (validateUserData body = .next ∨
      ∃ message : String, validateUserData body =
        .respond 400 { success := false, message := some message }) ∧
    (∀ nickname : Option JSValue,
      validateUserData { body with nickname := nickname } = validateUserData body) := by
  refine ⟨?_, ?_, fun _ => rfl⟩
  · by_cases hd : ∃ v, body.user_id = some v ∧ isDigitString v = true
    · obtain ⟨v, hu, hv⟩ := hd
      obtain ⟨s, rfl, hs⟩ := (isDigitString_iff v).1 hv
      rw [validateUserData_of_digits body _ hu hv]
      have huser : ∃ s : String, body.user_id = some (.str s) ∧ DecimalDigits s := ⟨s, hu, hs⟩
      cases hr : body.roles with
      | none => simp [RolesAcceptable, huser]
      | some r =>
        cases r with
        | arr items =>
          by_cases hall : items.all isDigitString = true
          · have := (roles_all_iff items).1 hall
            simp only [hall, if_true, true_iff]
            exact ⟨huser, Or.inr ⟨items, rfl, this⟩⟩
          · have hnot : ¬ ∀ item ∈ items, ∃ s : String, item = .str s ∧ DecimalDigits s :=
              fun h => hall ((roles_all_iff items).2 h)
            simp only [hall, Bool.false_eq_true, if_false, false_iff, not_and]
            constructor
            · intro h; exact absurd h (by simp)
            · rintro ⟨-, (h | ⟨items2, h, hi⟩)⟩
              · exact absurd h (by simp)
              · simp only [Option.some.injEq, JSValue.arr.injEq] at h
                subst h
                exact absurd hi hnot
        | null => simp [RolesAcceptable]
        | bool b => simp [RolesAcceptable]
        | num n => simp [RolesAcceptable]
        | str t => simp [RolesAcceptable]
        | obj fields => simp [RolesAcceptable]
    · have hu : ∀ v, body.user_id = some v → isDigitString v = false := by
        intro v hv
        by_contra hc
        exact hd ⟨v, hv, by simpa using hc⟩
      have hno : ¬ ∃ s : String, body.user_id = some (.str s) ∧ DecimalDigits s := by
        rintro ⟨s, hs, hdig⟩
        have := hu _ hs
        rw [(isDigitString_iff _).2 ⟨s, rfl, hdig⟩] at this
        exact absurd this (by simp)
      rcases validateUserData_of_not_digits body hu with h | h <;> simp [h, hno]
  · by_cases hd : ∃ v, body.user_id = some v ∧ isDigitString v = true
    · obtain ⟨v, hu, hv⟩ := hd
      rw [validateUserData_of_digits body _ hu hv]
      cases hr : body.roles with
      | none => simp
      | some r =>
        cases r with
        | arr items =>
          by_cases hall : items.all isDigitString = true
          · simp [hall]
          · right
            exact ⟨_, by simp only [hall, Bool.false_eq_true, if_false]; rfl⟩
        | null => right; exact ⟨_, rfl⟩
        | bool b => right; exact ⟨_, rfl⟩
        | num n => right; exact ⟨_, rfl⟩
        | str t => right; exact ⟨_, rfl⟩
        | obj fields => right; exact ⟨_, rfl⟩
    · have hu : ∀ v, body.user_id = some v → isDigitString v = false := by
        intro v hv
        by_contra hc
        exact hd ⟨v, hv, by simpa using hc⟩
      rcases validateUserData_of_not_digits body hu with h | h
      · right; exact ⟨_, by rw [h]; rfl⟩
      · right; exact ⟨_, by rw [h]; rfl⟩

/-! ## Properties of `isAdminUser` and of the admin guard chain -/

/-- C3: if `ADMIN_API_KEY` is configured, `isAdminUser` calls `next()` exactly when the
`x-api-key` header equals it, and otherwise answers 403 with `success: false` without
calling `next()`; if `ADMIN_API_KEY` is not configured, it calls `next()` for every
request, whatever the header. -/
theorem isAdminUser_spec (env : Env) (req : Request) :
    (configured env.ADMIN_API_KEY →
      (isAdminUser env req = .next ↔ req.headers "x-api-key" = env.ADMIN_API_KEY) ∧
      (req.headers "x-api-key" ≠ env.ADMIN_API_KEY →
        isAdminUser env req =
          .respond 403 { success := false, message := some "Admin privileges required" })) ∧
    (¬ configured env.ADMIN_API_KEY → isAdminUser env req = .next) := by
  constructor
  · intro hc
    have ht := truthyStr_of_configured hc
    by_cases heq : req.headers "x-api-key" = env.ADMIN_API_KEY
    · simp [isAdminUser, ht, heq]
    · simp [isAdminUser, ht, heq, failure]
  · intro hc
    have hf := (truthyStr_eq_false_iff _).2 hc
    simp [isAdminUser, hf]

theorem isAdminUser_of_configured (env : Env) (req : Request)
    (ha : configured env.ADMIN_API_KEY) :
    (isAdminUser env req = .next ↔ req.headers "x-api-key" = env.ADMIN_API_KEY) ∧
    (req.headers "x-api-key" ≠ env.ADMIN_API_KEY →
      isAdminUser env req = .respond 403 (failure "Admin privileges required")) := by
  have ht := truthyStr_of_configured ha
  by_cases heq : req.headers "x-api-key" = env.ADMIN_API_KEY
  · simp [isAdminUser, ht, heq]
  · simp [isAdminUser, ht, heq]

theorem authMiddleware_next_iff (env : Env) (req : Request)
    (hk : configured env.API_KEY) (hpath : req.path ≠ "/health") :
    authMiddleware env req = .next ↔ req.headers "x-api-key" = env.API_KEY := by
  have ht := truthyStr_of_configured hk
  by_cases heq : req.headers "x-api-key" = env.API_KEY
  · simp [authMiddleware, hpath, ht, heq]
  · by_cases hh : truthyStr (req.headers "x-api-key") = true
    · simp [authMiddleware, hpath, ht, heq, hh]
    · simp [authMiddleware, hpath, ht, heq, hh]

theorem authMiddleware_rejects (env : Env) (req : Request)
    (hk : configured env.API_KEY) (hpath : req.path ≠ "/health")
    (hne : req.headers "x-api-key" ≠ env.API_KEY) :
    (authMiddleware env req).status = some 401 ∨ (authMiddleware env req).status = some 403 := by
  have ht := truthyStr_of_configured hk
  by_cases hh : truthyStr (req.headers "x-api-key") = true
  · right; simp [authMiddleware, hpath, ht, hne, hh, Outcome.status]
  · left; simp [authMiddleware, hpath, ht, hh, Outcome.status]

theorem adminGuards_next_iff (env : Env) (req : Request)
    (hk : configured env.API_KEY) (ha : configured env.ADMIN_API_KEY)
    (hpath : req.path ≠ "/health") :
    adminGuards env req = .next ↔
      req.headers "x-api-key" = env.API_KEY ∧ req.headers "x-api-key" = env.ADMIN_API_KEY := by
  have hauth := authMiddleware_next_iff env req hk hpath
  have hadmin := isAdminUser_of_configured env req ha
  by_cases h1 : req.headers "x-api-key" = env.API_KEY
  · have hn := hauth.2 h1
    simp only [adminGuards, hn, andThen, h1, true_and]
    rw [← h1]
    exact hadmin.1
  · have hn : authMiddleware env req ≠ .next := fun h => h1 (hauth.1 h)
    constructor
    · intro h
      unfold adminGuards andThen at h
      split at h
      · rename_i hx; exact absurd hx hn
      · exact absurd h hn
    · intro h; exact absurd h.1 h1

theorem adminGuards_rejects (env : Env) (req : Request)
    (hk : configured env.API_KEY) (ha : configured env.ADMIN_API_KEY)
    (hpath : req.path ≠ "/health")
    (hno : ¬ (req.headers "x-api-key" = env.API_KEY ∧
      req.headers "x-api-key" = env.ADMIN_API_KEY)) :
    (adminGuards env req).status = some 401 ∨ (adminGuards env req).status = some 403 := by
  have hauth := authMiddleware_next_iff env req hk hpath
  have hadmin := isAdminUser_of_configured env req ha
  by_cases h1 : req.headers "x-api-key" = env.API_KEY
  · have hn := hauth.2 h1
    have h2 : req.headers "x-api-key" ≠ env.ADMIN_API_KEY := fun h => hno ⟨h1, h⟩
    right
    simp [adminGuards, hn, andThen, hadmin.2 h2, Outcome.status]
  · have hn : authMiddleware env req ≠ .next := fun h => h1 (hauth.1 h)
    have hsame : adminGuards env req = authMiddleware env req := by
      unfold adminGuards andThen
      split
      · rename_i hx; exact absurd hx hn
      · rfl
    rw [hsame]
    exact authMiddleware_rejects env req hk hpath h1

theorem serve_of_next (env : Env) (req : Request) (fault : Option JSError) (c : Collection)
    (h : adminGuards env req = .next) :
    serveListAll env req fault c = (listUsers fault c, true) ∧
    serveDeleteAll env req fault c
      = ((deleteAllUsers fault c).1, (deleteAllUsers fault c).2, true) := by
  simp [serveListAll, serveDeleteAll, h]

theorem serve_of_stopped (env : Env) (req : Request) (fault : Option JSError) (c : Collection)
    (h : adminGuards env req ≠ .next) :
    serveListAll env req fault c = (adminGuards env req, false) ∧
    serveDeleteAll env req fault c = (adminGuards env req, c, false) := by
  constructor
  · unfold serveListAll
    split
    · rename_i hx; exact absurd hx h
    · rfl
  · unfold serveDeleteAll
    split
    · rename_i hx; exact absurd hx h
    · rfl

/-- C10: with `API_KEY` and `ADMIN_API_KEY` both configured, a list-all or delete-all
request (its path is not `/health`) passes `authMiddleware` then `isAdminUser`, and so
has its handler run, exactly when its `x-api-key` header equals both secrets: then the
response is the handler's, and otherwise the request is answered 401 or 403 by a guard,
no handler runs and the collection is untouched. In particular, when the two secrets
differ, every request is answered 401 or 403 and neither handler ever runs. -/
theorem adminGuards_both_configured (env : Env) (req : Request)
    (hk : configured env.API_KEY) (ha : configured env.ADMIN_API_KEY)
    (hpath : req.path ≠ "/health") :
    (adminGuards env req = .next ↔
      req.headers "x-api-key" = env.API_KEY ∧ req.headers "x-api-key" = env.ADMIN_API_KEY) ∧
    (∀ (fault : Option JSError) (c : Collection),
      ((serveListAll env req fault c).2 = true ↔
        req.headers "x-api-key" = env.API_KEY ∧
          req.headers "x-api-key" = env.ADMIN_API_KEY) ∧
      ((serveDeleteAll env req fault c).2.2 = true ↔
        req.headers "x-api-key" = env.API_KEY ∧
          req.headers "x-api-key" = env.ADMIN_API_KEY) ∧
      (req.headers "x-api-key" = env.API_KEY ∧ req.headers "x-api-key" = env.ADMIN_API_KEY →
        serveListAll env req fault c = (listUsers fault c, true) ∧
        serveDeleteAll env req fault c
          = ((deleteAllUsers fault c).1, (deleteAllUsers fault c).2, true)) ∧
      (¬ (req.headers "x-api-key" = env.API_KEY ∧
          req.headers "x-api-key" = env.ADMIN_API_KEY) →
        ((adminGuards env req).status = some 401 ∨
          (adminGuards env req).status = some 403) ∧
        serveListAll env req fault c = (adminGuards env req, false) ∧
        serveDeleteAll env req fault c = (adminGuards env req, c, false))) ∧
    (env.API_KEY ≠ env.ADMIN_API_KEY →
      ((adminGuards env req).status = some 401 ∨ (adminGuards env req).status = some 403) ∧
      ∀ (fault : Option JSError) (c : Collection),
        serveListAll env req fault c = (adminGuards env req, false) ∧
        serveDeleteAll env req fault c = (adminGuards env req, c, false)) := by
  have hiff := adminGuards_next_iff env req hk ha hpath
  refine ⟨hiff, fun fault c => ?_, ?_⟩
  · by_cases hboth : req.headers "x-api-key" = env.API_KEY ∧
        req.headers "x-api-key" = env.ADMIN_API_KEY
    · have hrun := serve_of_next env req fault c (hiff.2 hboth)
      refine ⟨?_, ?_, fun _ => hrun, fun h => absurd hboth h⟩
      · rw [hrun.1]; exact ⟨fun _ => hboth, fun _ => rfl⟩
      · rw [hrun.2]; exact ⟨fun _ => hboth, fun _ => rfl⟩
    · have hstop : adminGuards env req ≠ .next := fun h => hboth (hiff.1 h)
      have hskip := serve_of_stopped env req fault c hstop
      refine ⟨?_, ?_, fun h => absurd h hboth,
        fun _ => ⟨adminGuards_rejects env req hk ha hpath hboth, hskip⟩⟩
      · rw [hskip.1]
        exact ⟨fun h => absurd h (by simp), fun h => absurd h hboth⟩
      · rw [hskip.2]
        exact ⟨fun h => absurd h (by simp), fun h => absurd h hboth⟩
  · intro hdiff
    have hno : ¬ (req.headers "x-api-key" = env.API_KEY ∧
        req.headers "x-api-key" = env.ADMIN_API_KEY) :=
      fun h => hdiff (h.1.symm.trans h.2)
    have hstop : adminGuards env req ≠ .next := fun h => hno (hiff.1 h)
    exact ⟨adminGuards_rejects env req hk ha hpath hno,
      fun fault c => serve_of_stopped env req fault c hstop⟩

/-- C10 at two configurations. With the secrets `s3cret` and `r00t`, a list-all request
carrying `s3cret` passes `authMiddleware` and is answered 403 by `isAdminUser`. With
both secrets `s3cret`, a request carrying `s3cret` has both handlers run, and a request
without a key has neither run and leaves the collection as it was. -/
theorem adminGuards_both_configured_witness :
    configured envTwoKeys.API_KEY ∧ configured envTwoKeys.ADMIN_API_KEY ∧
    configured envSameKey.API_KEY ∧ configured envSameKey.ADMIN_API_KEY ∧
    (requestWith "/api/users" (some "s3cret")).path ≠ "/health" ∧
    (requestWith "/api/users" none).path ≠ "/health" ∧
    envTwoKeys.API_KEY ≠ envTwoKeys.ADMIN_API_KEY ∧
    ((adminGuards envTwoKeys (requestWith "/api/users" (some "s3cret"))).status = some 401 ∨
      (adminGuards envTwoKeys (requestWith "/api/users" (some "s3cret"))).status = some 403) ∧
    (serveListAll envSameKey (requestWith "/api/users" (some "s3cret")) none sampleCollection
        = (listUsers none sampleCollection, true) ∧
      serveDeleteAll envSameKey (requestWith "/api/users" (some "s3cret")) none sampleCollection
        = ((deleteAllUsers none sampleCollection).1, (deleteAllUsers none sampleCollection).2,
            true)) ∧
    (serveListAll envSameKey (requestWith "/api/users" none) none sampleCollection
        = (adminGuards envSameKey (requestWith "/api/users" none), false) ∧
      serveDeleteAll envSameKey (requestWith "/api/users" none) none sampleCollection
        = (adminGuards envSameKey (requestWith "/api/users" none), sampleCollection, false)) :=
  ⟨⟨"s3cret", rfl, by decide⟩, ⟨"r00t", rfl, by decide⟩,
    ⟨"s3cret", rfl, by decide⟩, ⟨"s3cret", rfl, by decide⟩, by decide, by decide, by decide,
    ((adminGuards_both_configured envTwoKeys (requestWith "/api/users" (some "s3cret"))
      ⟨"s3cret", rfl, by decide⟩ ⟨"r00t", rfl, by decide⟩ (by decide)).2.2 (by decide)).1,
    ((adminGuards_both_configured envSameKey (requestWith "/api/users" (some "s3cret"))
      ⟨"s3cret", rfl, by decide⟩ ⟨"s3cret", rfl, by decide⟩ (by decide)).2.1
        none sampleCollection).2.2.1 ⟨rfl, rfl⟩,
    (((adminGuards_both_configured envSameKey (requestWith "/api/users" none)
      ⟨"s3cret", rfl, by decide⟩ ⟨"s3cret", rfl, by decide⟩ (by decide)).2.1
        none sampleCollection).2.2.2 (by simp [requestWith, envSameKey])).2⟩

/-! ## Properties of the store operations and of the upsert route -/

theorem find_cons_other (user_id : String) (d : MemberDoc) (rest : List MemberDoc)
    (hd : d.user_id ≠ user_id) :
    (d :: rest).find? (fun d => d.user_id == user_id)
      = rest.find? (fun d => d.user_id == user_id) := by
  have hb : (d.user_id == user_id) = false := by simpa using hd
  simp [List.find?, hb]

theorem find_cons_same (user_id : String) (d : MemberDoc) (rest : List MemberDoc)
    (hd : d.user_id = user_id) :
    (d :: rest).find? (fun d => d.user_id == user_id) = some d := by
  have hb : (d.user_id == user_id) = true := by simpa using hd
  simp [List.find?, hb]

theorem find_setFirst (user_id : String) (roles nickname : Option JSValue)
    (docs : List MemberDoc) (doc : MemberDoc)
    (h : docs.find? (fun d => d.user_id == user_id) = some doc) :
    (setFirst user_id roles nickname docs).find? (fun d => d.user_id == user_id)
      = some { doc with roles := roles, nickname := nickname } := by
  induction docs with
  | nil => simp at h
  | cons d rest ih =>
    by_cases hd : d.user_id = user_id
    · rw [find_cons_same user_id d rest hd] at h
      have hdoc : d = doc := by simpa using h
      subst hdoc
      simp [setFirst, hd, find_cons_same]
    · rw [find_cons_other user_id d rest hd] at h
      simp [setFirst, hd, find_cons_other, ih h]

theorem find_append_new (user_id : String) (docs : List MemberDoc) (new : MemberDoc)
    (h : docs.find? (fun d => d.user_id == user_id) = none) (hnew : new.user_id = user_id) :
    (docs ++ [new]).find? (fun d => d.user_id == user_id) = some new := by
  induction docs with
  | nil => simp [find_cons_same, hnew]
  | cons d rest ih =>
    by_cases hd : d.user_id = user_id
    · rw [find_cons_same user_id d rest hd] at h
      exact absurd h (by simp)
    · rw [find_cons_other user_id d rest hd] at h
      rw [List.cons_append, find_cons_other user_id d _ hd]
      exact ih h

theorem setFirst_append_same (user_id : String) (roles nickname : Option JSValue)
    (docs : List MemberDoc)
    (h : docs.find? (fun d => d.user_id == user_id) = none) :
    setFirst user_id roles nickname
        (docs ++ [{ user_id := user_id, roles := roles, nickname := nickname }])
      = docs ++ [{ user_id := user_id, roles := roles, nickname := nickname }] := by
  induction docs with
  | nil => simp [setFirst]
  | cons d rest ih =>
    by_cases hd : d.user_id = user_id
    · rw [find_cons_same user_id d rest hd] at h
      exact absurd h (by simp)
    · rw [find_cons_other user_id d rest hd] at h
      simp [setFirst, hd, ih h]

theorem count_append_new (user_id : String) (docs : List MemberDoc) (new : MemberDoc)
    (h : docs.find? (fun d => d.user_id == user_id) = none) (hnew : new.user_id = user_id) :
    ((docs ++ [new]).filter (fun d => d.user_id == user_id)).length = 1 := by
  induction docs with
  | nil => simp [List.filter, hnew]
  | cons d rest ih =>
    by_cases hd : d.user_id = user_id
    · rw [find_cons_same user_id d rest hd] at h
      exact absurd h (by simp)
    · rw [find_cons_other user_id d rest hd] at h
      have hb : (d.user_id == user_id) = false := by simpa using hd
      rw [List.cons_append, List.filter_cons_of_neg (by simp [hb])]
      exact ih h

theorem find_user_id (user_id : String) (docs : List MemberDoc) (doc : MemberDoc)
    (h : docs.find? (fun d => d.user_id == user_id) = some doc) : doc.user_id = user_id := by
  have := List.find?_some h
  simpa using this

theorem postUsers_valid (fault : Option JSError) (c : Collection) (body : Body)
    (user_id : String) (hvalid : validateUserData body = .next)
    (huid : body.user_id = some (.str user_id)) :
    postUsers fault c body = upsertUser fault c user_id body.roles body.nickname := by
  simp [postUsers, hvalid, huid]

theorem upsertUser_new (c : Collection) (user_id : String) (roles nickname : Option JSValue)
    (hnew : c.findOne user_id = none) :
    upsertUser none c user_id roles nickname =
      (.respond 201
        { success := true, message := some "User created"
          data := some (.record { user_id := user_id, roles := roles, nickname := nickname }) },
        { docs := c.docs ++ [{ user_id := user_id, roles := roles, nickname := nickname }] }) := by
  simp [upsertUser, Collection.updateOne, hnew]

theorem upsertUser_existing (c : Collection) (user_id : String)
    (roles nickname : Option JSValue) (doc : MemberDoc)
    (hold : c.findOne user_id = some doc) :
    upsertUser none c user_id roles nickname =
      (.respond 200
        { success := true, message := some "User updated"
          data := some (.record { user_id := user_id, roles := roles, nickname := nickname }) },
        { docs := setFirst user_id roles nickname c.docs }) := by
  simp [upsertUser, Collection.updateOne, hold]

theorem otherCollection_has_no_42 : otherCollection.findOne "42" = none := by
  simp [Collection.findOne, otherCollection]

theorem sampleBody_valid : validateUserData sampleBody = .next := by
  simp [validateUserData, sampleBody, truthy, JSValue.truthy, isDigitString, regexDigitsTest]

theorem bareBody_valid : validateUserData bareBody = .next := by
  simp [validateUserData, bareBody, truthy, JSValue.truthy, isDigitString, regexDigitsTest]

/-- C5: for every collection and every body that passes `validateUserData`, when no
record is stored for its `user_id`, a first POST is answered 201, and a second POST
with the identical body is answered 200 and leaves the collection exactly as the first
POST left it: one record for that `user_id`, holding the submitted `roles` and
`nickname`. -/
theorem postUsers_idempotent (c : Collection) (body : Body) (user_id : String)
    (hvalid : validateUserData body = .next) (huid : body.user_id = some (.str user_id))
    (hnew : c.findOne user_id = none) :
    (postUsers none c body).1.status = some 201 ∧
    (postUsers none (postUsers none c body).2 body).1.status = some 200 ∧
    (postUsers none (postUsers none c body).2 body).2 = (postUsers none c body).2 ∧
    (postUsers none (postUsers none c body).2 body).2.countOf user_id = 1 ∧
    (postUsers none (postUsers none c body).2 body).2.findOne user_id
      = some { user_id := user_id, roles := body.roles, nickname := body.nickname } := by
  have hfirst := upsertUser_new c user_id body.roles body.nickname hnew
  have hfound : Collection.findOne
      { docs := c.docs ++
          [{ user_id := user_id, roles := body.roles, nickname := body.nickname }] } user_id
      = some { user_id := user_id, roles := body.roles, nickname := body.nickname } :=
    find_append_new user_id c.docs _ hnew rfl
  have hsecond := upsertUser_existing _ user_id body.roles body.nickname _ hfound
  have hsame := setFirst_append_same user_id body.roles body.nickname c.docs hnew
  simp only [postUsers_valid none _ body user_id hvalid huid, hfirst, hsecond, hsame]
  refine ⟨rfl, rfl, trivial, ?_, hfound⟩
  exact count_append_new user_id c.docs _ hnew rfl

/-- C5 at the body `{"user_id": "42", "roles": ["7", "8"], "nickname": "neo"}` and a
collection whose only record is of user `7`. -/
theorem postUsers_idempotent_witness :
    validateUserData sampleBody = .next ∧ sampleBody.user_id = some (.str "42") ∧
    otherCollection.findOne "42" = none ∧
    (postUsers none otherCollection sampleBody).1.status = some 201 ∧
    (postUsers none (postUsers none otherCollection sampleBody).2 sampleBody).1.status
      = some 200 :=
  ⟨sampleBody_valid, rfl, otherCollection_has_no_42,
    (postUsers_idempotent otherCollection sampleBody "42" sampleBody_valid rfl
      otherCollection_has_no_42).1,
    (postUsers_idempotent otherCollection sampleBody "42" sampleBody_valid rfl
      otherCollection_has_no_42).2.1⟩

/-- C6: for every collection and every body that passes `validateUserData`, the POST
succeeds (201 or 200), and a GET of that `user_id` right after it is answered 200 with
a record of that `user_id` whose `roles` and `nickname` are the ones of the body, an
omitted field being absent from the record whatever the record held before. -/
theorem read_after_write (c : Collection) (body : Body) (user_id : String)
    (hvalid : validateUserData body = .next) (huid : body.user_id = some (.str user_id)) :
    ((postUsers none c body).1.status = some 201 ∨
      (postUsers none c body).1.status = some 200) ∧
    ∃ doc : MemberDoc,
      getUserById none (postUsers none c body).2 (some user_id)
        = .respond 200 { success := true, data := some (.record doc) } ∧
      doc.user_id = user_id ∧ doc.roles = body.roles ∧ doc.nickname = body.nickname := by
  obtain ⟨s, hs, hdigits⟩ := validateUserData_next_user_id body hvalid
  have hsu : s = user_id := by
    rw [huid] at hs
    simpa using hs.symm
  subst hsu
  have hne : s ≠ "" := hdigits.1
  rw [postUsers_valid none c body s hvalid huid]
  cases hold : c.findOne s with
  | none =>
    rw [upsertUser_new c s body.roles body.nickname hold]
    refine ⟨Or.inl rfl, ⟨{ user_id := s, roles := body.roles, nickname := body.nickname }, ?_,
      rfl, rfl, rfl⟩⟩
    have hfound : Collection.findOne
        { docs := c.docs ++ [{ user_id := s, roles := body.roles, nickname := body.nickname }] } s
        = some { user_id := s, roles := body.roles, nickname := body.nickname } :=
      find_append_new s c.docs _ hold rfl
    simp [getUserById, hne, hfound]
  | some old =>
    rw [upsertUser_existing c s body.roles body.nickname old hold]
    refine ⟨Or.inr rfl, ⟨{ old with roles := body.roles, nickname := body.nickname }, ?_,
      find_user_id s c.docs old hold, rfl, rfl⟩⟩
    have hfound : Collection.findOne { docs := setFirst s body.roles body.nickname c.docs } s
        = some { old with roles := body.roles, nickname := body.nickname } :=
      find_setFirst s body.roles body.nickname c.docs old hold
    simp [getUserById, hne, hfound]

/-- C6 at the body `{"user_id": "42"}` and a collection that holds a role list and a
nickname for user `42`: the GET returns a record without `roles` and `nickname`. -/
theorem read_after_write_witness :
    validateUserData bareBody = .next ∧ bareBody.user_id = some (.str "42") ∧
    ∃ doc : MemberDoc,
      getUserById none (postUsers none sampleCollection bareBody).2 (some "42")
        = .respond 200 { success := true, data := some (.record doc) } ∧
      doc.user_id = "42" ∧ doc.roles = none ∧ doc.nickname = none :=
  ⟨bareBody_valid, rfl, (read_after_write sampleCollection bareBody "42" bareBody_valid rfl).2⟩

/-! ## The persistence gateway -/

theorem connect_resume_awaits (m : GatewayState) (replies : DriverReplies)
    (t : ConnectTask) : ((t.resume m replies).2).awaits ≤ t.awaits - 1 := by
  cases t with
  | returned d c => simp [ConnectTask.resume, ConnectTask.awaits]
  | thrown e => simp [ConnectTask.resume, ConnectTask.awaits]
  | awaitingConnect =>
    simp only [ConnectTask.resume, afterConnect, connectCatch]
    split
    · simp [ConnectTask.awaits]
    · split <;> simp [ConnectTask.awaits]
  | awaitingListIndexes =>
    simp only [ConnectTask.resume, afterListIndexes, connectCatch]
    split
    · simp [ConnectTask.awaits]
    · split
      · split <;> simp [ConnectTask.awaits]
      · simp [ConnectTask.awaits]
  | awaitingCreateIndex =>
    simp only [ConnectTask.resume, afterCreateIndex, connectCatch]
    split <;> simp [ConnectTask.awaits]

theorem get_resume_awaits (m : GatewayState) (replies : DriverReplies) (t : GetTask) :
    ((t.resume m replies).2).awaits ≤ t.awaits - 1 := by
  cases t with
  | returned c => simp [GetTask.resume, GetTask.awaits]
  | thrown e => simp [GetTask.resume, GetTask.awaits]
  | awaiting inner =>
    cases inner with
    | returned d c => simp [GetTask.resume, GetTask.awaits]
    | thrown e => simp [GetTask.resume, GetTask.awaits]
    | awaitingConnect =>
      have := connect_resume_awaits m replies .awaitingConnect
      simp only [GetTask.resume, GetTask.awaits, ConnectTask.awaits] at this ⊢
      omega
    | awaitingListIndexes =>
      have := connect_resume_awaits m replies .awaitingListIndexes
      simp only [GetTask.resume, GetTask.awaits, ConnectTask.awaits] at this ⊢
      omega
    | awaitingCreateIndex =>
      have := connect_resume_awaits m replies .awaitingCreateIndex
      simp only [GetTask.resume, GetTask.awaits, ConnectTask.awaits] at this ⊢
      omega

theorem getStart_awaits (m : GatewayState) : (getStart m).2.awaits ≤ 4 := by
  unfold getStart connectStart
  split
  · split <;> simp [GetTask.awaits, ConnectTask.awaits]
  · simp [GetTask.awaits]

theorem get_resume_awaits_le (replies : DriverReplies) (s : GatewayState × GetTask)
    (n : Nat) (h : s.2.awaits ≤ n + 1) : ((s.2.resume s.1 replies).2).awaits ≤ n := by
  have := get_resume_awaits s.1 replies s.2
  omega

/-- Run alone, `getMembersCollection` always settles: it returns or throws. -/
theorem getMembersCollection_settles (replies : DriverReplies) (m : GatewayState) :
    (getMembersCollection replies m).2.awaits = 0 :=
  Nat.le_zero.1
    (get_resume_awaits_le replies _ 0
      (get_resume_awaits_le replies _ 1
        (get_resume_awaits_le replies _ 2
          (get_resume_awaits_le replies _ 3 (getStart_awaits m)))))

/-- After `closeConnection` the three module variables are `null`. -/
theorem closeConnection_clears (m : GatewayState) (h : m.client ≠ none) :
    (closeConnection m).client = none ∧ (closeConnection m).db = none ∧
    (closeConnection m).membersCollection = none := by
  cases hc : m.client with
  | none => exact absurd hc h
  | some k => simp [closeConnection, hc]

/-- C7 on the code: on a freshly loaded module, let `client.connect()` succeed and
`listIndexes` fail with `error`. `connectToDatabase` throws `error` and resets `client`,
but `db` and `membersCollection` keep the handles of the failed client 0; the next
`getMembersCollection`, whatever the driver would answer, returns that handle and
constructs no client. The same happens when `createIndex` is the call that fails. -/
theorem connectToDatabase_failure_keeps_handle (error : JSError)
    (createIndex : Except JSError Unit) (later : DriverReplies) :
    connectToDatabase
        { connect := .ok (), listIndexes := .error error, createIndex := createIndex }
        GatewayState.fresh
      = ({ client := none, db := some 0, membersCollection := some 0,
           clientsCreated := 1, createIndexCalls := 0 }, .thrown error) ∧
    getMembersCollection later
        { client := none, db := some 0, membersCollection := some 0,
          clientsCreated := 1, createIndexCalls := 0 }
      = ({ client := none, db := some 0, membersCollection := some 0,
           clientsCreated := 1, createIndexCalls := 0 }, .returned (some 0)) ∧
    connectToDatabase
        { connect := .ok (), listIndexes := .ok [], createIndex := .error error }
        GatewayState.fresh
      = ({ client := none, db := some 0, membersCollection := some 0,
           clientsCreated := 1, createIndexCalls := 1 }, .thrown error) ∧
    getMembersCollection later
        { client := none, db := some 0, membersCollection := some 0,
          clientsCreated := 1, createIndexCalls := 1 }
      = ({ client := none, db := some 0, membersCollection := some 0,
           clientsCreated := 1, createIndexCalls := 1 }, .returned (some 0)) := by
  refine ⟨rfl, rfl, rfl, rfl⟩

/-- C8 on the code: on a freshly loaded module two callers start
`getMembersCollection` before the connection completes. The first constructs client 0
and suspends at `client.connect()`. The second finds `client` set, so its
`connectToDatabase()` returns `{ db: null, membersCollection: null }` at once and its
`return membersCollection` runs while the variable is still `null`: it gets `null`. The
first then completes and gets the handle of client 0. One client is constructed and
`createIndex` is called once. -/
theorem getMembersCollection_second_caller_gets_null :
    getStart GatewayState.fresh
      = ({ client := some 0, db := none, membersCollection := none,
           clientsCreated := 1, createIndexCalls := 0 }, .awaiting .awaitingConnect) ∧
    getStart (getStart GatewayState.fresh).1
      = ((getStart GatewayState.fresh).1, .awaiting (.returned none none)) ∧
    overlappingCalls workingDriver GatewayState.fresh
      = (.returned (some 0), .returned none,
          { client := some 0, db := some 0, membersCollection := some 0,
            clientsCreated := 1, createIndexCalls := 1 }) := by
  refine ⟨rfl, rfl, rfl⟩

end DiscordRoleNickname
